import Mathlib

/-!
Verification development for the grocery price-comparison client
(presentation-layer state containers).

The embedding models the two client-side state containers:

* `SessionStore` — `src/frontend/src/contexts/AuthContext.js`
* `CartStore`    — `src/frontend/src/contexts/CartContext.js`

Each asynchronous operation of the JavaScript source is embedded as a pure
Lean function taking the current store state and the outcome of the single
HTTP request the operation issues (an `Except HttpError response`), and
returning the new state, the JavaScript return value, and the list of
requests the operation issued (so "zero network calls" and "no retry" are
statable).  JavaScript truthiness (`||` fallbacks, `!!user`, `if (token)`)
is modelled explicitly: for strings, `""` is falsy; for numbers, `0` is
falsy; `null`/`undefined`/missing fields are `Option.none`.
-/

/-- A basket line item, as returned by the server
(`BasketItem` in the spec data model; the client treats it opaquely). -/
structure BasketItem where
  id : String
  product_name : String
  store_name : String
  store_id : String
  price : Rat
  unit : String
  quantity : Rat
  total_price : Rat
deriving DecidableEq, Repr

/-- The full basket snapshot returned by every basket endpoint
(`BasketSnapshot` in the spec data model).  `estimated_savings` is optional
(`decimal?` in the spec); the client reads it with a `|| 0` fallback. -/
structure BasketSnapshot where
  items : List BasketItem
  total_items : Nat
  total_cost : Rat
  estimated_savings : Option Rat
  alternative_stores : List (String × Rat)
deriving DecidableEq, Repr

/-- The user profile returned by `GET /auth/me` and inside login/register
responses (`UserProfile` in the spec data model). -/
structure UserProfile where
  id : String
  email : String
  full_name : String
  location : Option String
deriving DecidableEq, Repr

/-- The body of `POST /auth/login` and `POST /auth/register` success
responses: `{access_token, user}`. -/
structure AuthResponse where
  access_token : String
  user : UserProfile
deriving DecidableEq, Repr

/-- The comparison payload returned by `GET /basket/summary`; opaque to the
client, which stores and returns it unchanged. -/
structure SummaryData where
  payload : String
deriving DecidableEq, Repr

/-- A failed axios request, collapsing the JavaScript error object to the
only part the code reads: `error.response?.data?.detail`.  `none` covers a
network/transport failure (no response) as well as a server error response
without a `detail` field. -/
structure HttpError where
  detail : Option String
deriving DecidableEq, Repr

/-- The HTTP requests the two stores can issue, with the arguments the code
puts in the URL or body. -/
inductive ApiRequest where
  | getMe
  | postLogin (email password : String)
  | postRegister (email password fullName : String) (location : Option String)
  | putMe
  | getBasket
  | postBasketItem (productId storeId : String) (quantity : Rat)
  | putBasketItem (itemId : String) (quantity : Rat)
  | deleteBasketItem (itemId : String)
  | deleteBasket
  | getSummary
deriving DecidableEq, Repr

/-- A JavaScript return value of a store operation: `undefined` (a bare
`return` or falling off the end), `null`, a result object
`{success, error?}`, or a summary payload passed through. -/
inductive JsReturn where
  | undef
  | nullv
  | res (success : Bool) (error : Option String)
  | summaryData (s : SummaryData)
deriving DecidableEq, Repr

/-- `isFailureResult r` holds exactly when `r` is a uniform failure result
`{success: false, error: message}` in the sense of spec section 7. -/
def isFailureResult : JsReturn → Bool
  | .res false (some _) => true
  | _ => false

/-- JavaScript `x || fallback` on an optional string field: missing
(`none`) and the empty string are falsy. -/
def jsOrStr (x : Option String) (fallback : String) : String :=
  match x with
  | some s => if s = "" then fallback else s
  | none => fallback

/-- JavaScript truthiness of an optional string (`if (savedToken)`,
`if (token)`): present and non-empty. -/
def jsTruthyStr (x : Option String) : Bool :=
  match x with
  | some s => s ≠ ""
  | none => false

/-- JavaScript `x || 0` on a number: `0` is falsy, so the fallback is again
`0` and the value passes through. -/
def jsOrZeroRat (x : Rat) : Rat :=
  if x = 0 then 0 else x

/-- JavaScript `x || 0` on an optional number field
(`basket?.estimated_savings || 0`): missing and `0` are falsy. -/
def jsOrZeroOptRat (x : Option Rat) : Rat :=
  match x with
  | some v => if v = 0 then 0 else v
  | none => 0

/-- JavaScript `x || 0` on a natural-valued field (`basket?.total_items || 0`). -/
def jsOrZeroNat (x : Nat) : Nat :=
  if x = 0 then 0 else x

/-! ## CartStore (`CartContext.js`) -/

/-- The component state of `CartProvider`: the `basket` and `loading`
`useState` hooks, plus the `isAuthenticated` flag it reads from the
session store. -/
structure CartState where
  isAuthenticated : Bool
  basket : Option BasketSnapshot
  loading : Bool
deriving DecidableEq, Repr

/-- `fetchBasket` (CartContext.js lines 32-44): bare `return` when
unauthenticated; otherwise `GET /basket/`, on success replace the basket
with the response body, on error only log.  Always returns `undefined`. -/
def fetchBasket (st : CartState) (resp : Except HttpError BasketSnapshot) :
    CartState × JsReturn × List ApiRequest :=
  if !st.isAuthenticated then
    (st, .undef, [])
  else
    match resp with
    | .ok snap => ({ st with basket := some snap, loading := false }, .undef, [.getBasket])
    | .error _ => ({ st with loading := false }, .undef, [.getBasket])

/-- `addToBasket` (lines 46-67): `POST /basket/items`; on success replace
the basket with the response body and return `{success: true}`; on error
return `{success: false, error: detail || 'Failed to add to basket'}`. -/
def addToBasket (st : CartState) (resp : Except HttpError BasketSnapshot)
    (productId storeId : String) (quantity : Rat) :
    CartState × JsReturn × List ApiRequest :=
  if !st.isAuthenticated then
    (st, .res false (some "Not authenticated"), [])
  else
    match resp with
    | .ok snap =>
        ({ st with basket := some snap, loading := false }, .res true none,
         [.postBasketItem productId storeId quantity])
    | .error e =>
        ({ st with loading := false },
         .res false (some (jsOrStr e.detail "Failed to add to basket")),
         [.postBasketItem productId storeId quantity])

/-- `updateBasketItem` (lines 69-88): `PUT /basket/items/{id}`; same
replace-on-success pattern, fallback message `'Failed to update item'`. -/
def updateBasketItem (st : CartState) (resp : Except HttpError BasketSnapshot)
    (itemId : String) (quantity : Rat) :
    CartState × JsReturn × List ApiRequest :=
  if !st.isAuthenticated then
    (st, .res false (some "Not authenticated"), [])
  else
    match resp with
    | .ok snap =>
        ({ st with basket := some snap, loading := false }, .res true none,
         [.putBasketItem itemId quantity])
    | .error e =>
        ({ st with loading := false },
         .res false (some (jsOrStr e.detail "Failed to update item")),
         [.putBasketItem itemId quantity])

/-- `removeFromBasket` (lines 90-107): `DELETE /basket/items/{id}`; same
pattern, fallback message `'Failed to remove item'`. -/
def removeFromBasket (st : CartState) (resp : Except HttpError BasketSnapshot)
    (itemId : String) :
    CartState × JsReturn × List ApiRequest :=
  if !st.isAuthenticated then
    (st, .res false (some "Not authenticated"), [])
  else
    match resp with
    | .ok snap =>
        ({ st with basket := some snap, loading := false }, .res true none,
         [.deleteBasketItem itemId])
    | .error e =>
        ({ st with loading := false },
         .res false (some (jsOrStr e.detail "Failed to remove item")),
         [.deleteBasketItem itemId])

/-- `clearBasket` (lines 109-126): `DELETE /basket/`; same pattern,
fallback message `'Failed to clear basket'`. -/
def clearBasket (st : CartState) (resp : Except HttpError BasketSnapshot) :
    CartState × JsReturn × List ApiRequest :=
  if !st.isAuthenticated then
    (st, .res false (some "Not authenticated"), [])
  else
    match resp with
    | .ok snap =>
        ({ st with basket := some snap, loading := false }, .res true none,
         [.deleteBasket])
    | .error e =>
        ({ st with loading := false },
         .res false (some (jsOrStr e.detail "Failed to clear basket")),
         [.deleteBasket])

/-- `getBasketSummary` (lines 128-138): returns `null` when
unauthenticated; otherwise `GET /basket/summary`, returning the response
body on success and `null` on error.  Never touches the stored snapshot. -/
def getBasketSummary (st : CartState) (resp : Except HttpError SummaryData) :
    CartState × JsReturn × List ApiRequest :=
  if !st.isAuthenticated then
    (st, .nullv, [])
  else
    match resp with
    | .ok s => (st, .summaryData s, [.getSummary])
    | .error _ => (st, .nullv, [.getSummary])

/-- The `useEffect` on `[isAuthenticated]` (lines 24-30): when the flag
becomes true, call `fetchBasket()` (one fetch); when it becomes false, set
the basket to `null` without any remote call. -/
def cartAuthEffect (st : CartState) (newAuth : Bool)
    (resp : Except HttpError BasketSnapshot) : CartState × List ApiRequest :=
  let st1 := { st with isAuthenticated := newAuth }
  if newAuth then
    ((fetchBasket st1 resp).1, (fetchBasket st1 resp).2.2)
  else
    ({ st1 with basket := none }, [])

/-- Derived value `itemCount` (line 149): `basket?.total_items || 0`. -/
def itemCount (basket : Option BasketSnapshot) : Nat :=
  match basket with
  | some b => jsOrZeroNat b.total_items
  | none => 0

/-- Derived value `totalCost` (line 150): `basket?.total_cost || 0`. -/
def totalCost (basket : Option BasketSnapshot) : Rat :=
  match basket with
  | some b => jsOrZeroRat b.total_cost
  | none => 0

/-- Derived value `estimatedSavings` (line 151):
`basket?.estimated_savings || 0`. -/
def estimatedSavings (basket : Option BasketSnapshot) : Rat :=
  match basket with
  | some b => jsOrZeroOptRat b.estimated_savings
  | none => 0

/-- `useCart` (lines 7-13): throw when used outside the provider (the
context value is absent), otherwise return the value object. -/
def useCart {α : Type} (context : Option α) : Except String α :=
  match context with
  | none => .error "useCart must be used within a CartProvider"
  | some v => .ok v

/-! ## SessionStore (`AuthContext.js`) -/

/-- The component state of `AuthProvider`: the `user`, `loading` and
`token` `useState` hooks (lines 18-20). -/
structure AuthState where
  user : Option UserProfile
  token : Option String
  loading : Bool
deriving DecidableEq, Repr

/-- The session world: the component state, the persisted token
(`localStorage.getItem('token')`), and the process-wide axios default
`Authorization` header. -/
structure AuthWorld where
  state : AuthState
  storage : Option String
  axiosAuth : Option String
deriving DecidableEq, Repr

/-- The header value `Bearer ${t}`. -/
def bearer (t : String) : String := "Bearer " ++ t

/-- Derived value `isAuthenticated: !!user` (line 138). -/
def isAuthenticated (s : AuthState) : Bool := s.user.isSome

/-- The world at component mount: `user = null`, `loading = true`,
`token = localStorage.getItem('token')` (line 20), storage as persisted,
and no axios default header set yet in the fresh process. -/
def initialWorld (persisted : Option String) : AuthWorld :=
  { state := { user := none, token := persisted, loading := true },
    storage := persisted, axiosAuth := none }

/-- The `useEffect` on `[token]` (lines 23-29): set the axios default
header to `Bearer ${token}` when the token state is truthy, delete it
otherwise.  React runs it at mount and again only when the token state
changes. -/
def tokenEffect (w : AuthWorld) : AuthWorld :=
  match w.state.token with
  | some t => if t = "" then { w with axiosAuth := none }
              else { w with axiosAuth := some (bearer t) }
  | none => { w with axiosAuth := none }

/-- `checkAuth` (lines 32-51), the startup validation: if a token is
persisted (and truthy), set the header and issue one `GET /auth/me`; on
success set `user` to the profile and `token` to the saved token; on any
error remove the persisted token and delete the header, leaving the
`user`/`token` state untouched.  Either way finish with `loading = false`.
Without a persisted token nothing is issued. -/
def checkAuth (w : AuthWorld) (resp : Except HttpError UserProfile) :
    AuthWorld × List ApiRequest :=
  match w.storage with
  | some t =>
      if t = "" then
        ({ w with state := { w.state with loading := false } }, [])
      else
        match resp with
        | .ok profile =>
            ({ state := { user := some profile, token := some t, loading := false },
               storage := some t, axiosAuth := some (bearer t) }, [.getMe])
        | .error _ =>
            ({ state := { w.state with loading := false },
               storage := none, axiosAuth := none }, [.getMe])
  | none => ({ w with state := { w.state with loading := false } }, [])

/-- `login` (lines 53-78): `POST /auth/login`; on success persist the
returned token, set `{token, user}`, set the default header and return
`{success: true}`; on failure return
`{success: false, error: detail || 'Login failed'}` leaving everything
untouched. -/
def login (w : AuthWorld) (resp : Except HttpError AuthResponse)
    (email password : String) : AuthWorld × JsReturn × List ApiRequest :=
  match resp with
  | .ok r =>
      ({ state := { user := some r.user, token := some r.access_token,
                    loading := w.state.loading },
         storage := some r.access_token, axiosAuth := some (bearer r.access_token) },
       .res true none, [.postLogin email password])
  | .error e =>
      (w, .res false (some (jsOrStr e.detail "Login failed")),
       [.postLogin email password])

/-- `register` (lines 80-107): same contract as `login` against
`POST /auth/register`, fallback message `'Registration failed'`. -/
def registerUser (w : AuthWorld) (resp : Except HttpError AuthResponse)
    (email password fullName : String) (location : Option String) :
    AuthWorld × JsReturn × List ApiRequest :=
  match resp with
  | .ok r =>
      ({ state := { user := some r.user, token := some r.access_token,
                    loading := w.state.loading },
         storage := some r.access_token, axiosAuth := some (bearer r.access_token) },
       .res true none, [.postRegister email password fullName location])
  | .error e =>
      (w, .res false (some (jsOrStr e.detail "Registration failed")),
       [.postRegister email password fullName location])

/-- `logout` (lines 109-114): synchronous and local-only — remove the
persisted token, clear `token` and `user`, delete the header.  No request. -/
def logout (w : AuthWorld) : AuthWorld :=
  { state := { user := none, token := none, loading := w.state.loading },
    storage := none, axiosAuth := none }

/-- An outbound request as axios sends it: the shared default
`Authorization` header of the current world is attached to every request
any component issues. -/
structure OutboundRequest where
  request : ApiRequest
  authorization : Option String
deriving DecidableEq, Repr

/-- How axios dispatches a request in a given world: it attaches the
process-wide default header. -/
def outbound (w : AuthWorld) (r : ApiRequest) : OutboundRequest :=
  { request := r, authorization := w.axiosAuth }

/-- `useAuth` (AuthContext.js lines 6-12): throw when used outside the
provider, otherwise return the value object. -/
def useAuth {α : Type} (context : Option α) : Except String α :=
  match context with
  | none => .error "useAuth must be used within an AuthProvider"
  | some v => .ok v

/-! ## Concrete fixtures used by witnesses and counterexamples -/

/-- A concrete user profile. -/
def demoUser : UserProfile :=
  { id := "u1", email := "a@b.com", full_name := "Ada", location := some "London" }

/-- A concrete basket snapshot with one item. -/
def demoSnapshot : BasketSnapshot :=
  { items := [{ id := "i1", product_name := "Milk", store_name := "StoreA",
                store_id := "S1", price := 2, unit := "L", quantity := 2,
                total_price := 4 }],
    total_items := 1, total_cost := 4, estimated_savings := some 1,
    alternative_stores := [("S2", 5)] }

/-- A concrete authenticated cart state holding `demoSnapshot`. -/
def demoActiveCart : CartState :=
  { isAuthenticated := true, basket := some demoSnapshot, loading := false }

/-- A concrete unauthenticated cart state. -/
def demoDisabledCart : CartState :=
  { isAuthenticated := false, basket := none, loading := false }

/-! ## Helper lemmas -/

/-- `x || 0` on a number is the identity: the only falsy number the field
can hold is `0`, whose fallback is again `0`. -/
theorem jsOrZeroNat_eq (x : Nat) : jsOrZeroNat x = x := by
  unfold jsOrZeroNat; split <;> simp_all

/-- `x || 0` on a rational is the identity for the same reason. -/
theorem jsOrZeroRat_eq (x : Rat) : jsOrZeroRat x = x := by
  unfold jsOrZeroRat; split <;> simp_all

/-! ## Claims -/

/-- Claim C1: every mutating CartStore operation (`addToBasket`,
`updateBasketItem`, `removeFromBasket`, `clearBasket`) whose request
succeeds replaces the local basket snapshot wholesale with the server's
response body — the new snapshot is exactly the response, independent of
the previous snapshot, and the operation reports success. -/
theorem mutating_ops_replace_snapshot_wholesale
    (st : CartState) (snap : BasketSnapshot)
    (productId storeId itemId : String) (q : Rat)
    (h : st.isAuthenticated = true) :
    (addToBasket st (.ok snap) productId storeId q).1.basket = some snap ∧
    (addToBasket st (.ok snap) productId storeId q).2.1 = .res true none ∧
    (updateBasketItem st (.ok snap) itemId q).1.basket = some snap ∧
    (updateBasketItem st (.ok snap) itemId q).2.1 = .res true none ∧
    (removeFromBasket st (.ok snap) itemId).1.basket = some snap ∧
    (removeFromBasket st (.ok snap) itemId).2.1 = .res true none ∧
    (clearBasket st (.ok snap)).1.basket = some snap ∧
    (clearBasket st (.ok snap)).2.1 = .res true none := by
  simp [addToBasket, updateBasketItem, removeFromBasket, clearBasket, h]

/-- Witness for C1 at a concrete authenticated state and response. -/
theorem mutating_ops_replace_snapshot_wholesale_witness :
    demoActiveCart.isAuthenticated = true ∧
    (addToBasket demoActiveCart (.ok demoSnapshot) "P1" "S1" 2).1.basket =
      some demoSnapshot :=
  ⟨by decide,
   (mutating_ops_replace_snapshot_wholesale demoActiveCart demoSnapshot
      "P1" "S1" "i1" 2 (by decide)).1⟩

/-- Claim C2 counterexample: `fetchBasket` invoked while unauthenticated
issues no network call but does not return a failure result object — it
returns `undefined` — so not every operation "returns a failure result"
as the claim states. -/
theorem unauthenticated_fetch_no_failure_result :
    isFailureResult (fetchBasket demoDisabledCart (.error ⟨none⟩)).2.1 = false ∧
    (fetchBasket demoDisabledCart (.error ⟨none⟩)).2.1 = .undef ∧
    (fetchBasket demoDisabledCart (.error ⟨none⟩)).2.2 = [] := by decide

/-- Claim C2 (amended): every CartStore operation invoked while
unauthenticated issues zero network calls and leaves the state unchanged;
the four mutating operations return the uniform failure result
`{success: false, error: 'Not authenticated'}`, while `fetchBasket`
returns `undefined` and `getBasketSummary` returns `null` rather than a
failure result. -/
theorem unauthenticated_ops_short_circuit
    (st : CartState) (rb : Except HttpError BasketSnapshot)
    (rs : Except HttpError SummaryData)
    (productId storeId itemId : String) (q : Rat)
    (h : st.isAuthenticated = false) :
    fetchBasket st rb = (st, .undef, []) ∧
    addToBasket st rb productId storeId q =
      (st, .res false (some "Not authenticated"), []) ∧
    updateBasketItem st rb itemId q =
      (st, .res false (some "Not authenticated"), []) ∧
    removeFromBasket st rb itemId =
      (st, .res false (some "Not authenticated"), []) ∧
    clearBasket st rb = (st, .res false (some "Not authenticated"), []) ∧
    getBasketSummary st rs = (st, .nullv, []) := by
  simp [fetchBasket, addToBasket, updateBasketItem, removeFromBasket,
        clearBasket, getBasketSummary, h]

/-- Witness for the amended C2 at a concrete unauthenticated state. -/
theorem unauthenticated_ops_short_circuit_witness :
    demoDisabledCart.isAuthenticated = false ∧
    addToBasket demoDisabledCart (.error ⟨none⟩) "P1" "S1" 1 =
      (demoDisabledCart, .res false (some "Not authenticated"), []) :=
  ⟨by decide,
   (unauthenticated_ops_short_circuit demoDisabledCart (.error ⟨none⟩)
      (.error ⟨none⟩) "P1" "S1" "i1" 1 (by decide)).2.1⟩

/-- Claim C3: when a token is persisted at startup and the profile fetch
fails (server rejection or network error alike), `checkAuth` removes the
persisted token, leaves the session unauthenticated, issues exactly one
request (no retry), and a subsequent restart with the now-empty storage
issues no validation request at all. -/
theorem failed_startup_validation_clears_persisted_token
    (t : String) (e : HttpError) (ht : t ≠ "") :
    (checkAuth (initialWorld (some t)) (.error e)).1.storage = none ∧
    isAuthenticated (checkAuth (initialWorld (some t)) (.error e)).1.state = false ∧
    (checkAuth (initialWorld (some t)) (.error e)).2 = [.getMe] ∧
    (∀ resp2 : Except HttpError UserProfile,
      (checkAuth
        (initialWorld ((checkAuth (initialWorld (some t)) (.error e)).1.storage))
        resp2).2 = []) := by
  simp [checkAuth, initialWorld, isAuthenticated, ht]

/-- Witness for C3 at a concrete stale token and a network error. -/
theorem failed_startup_validation_clears_persisted_token_witness :
    ("expired" : String) ≠ "" ∧
    (checkAuth (initialWorld (some "expired")) (.error ⟨none⟩)).1.storage = none :=
  ⟨by decide,
   (failed_startup_validation_clears_persisted_token "expired" ⟨none⟩
      (by decide)).1⟩

/-- Claim C4 counterexample: after a failed startup validation the session
state is not fully cleared — the `token` component of the component state
keeps the stale value (only `user` is absent), refuting the claim that
both components are absent. -/
theorem failed_startup_validation_token_state_not_cleared :
    ¬ ((checkAuth (initialWorld (some "stale")) (.error ⟨none⟩)).1.state.token
        = none ∧
       (checkAuth (initialWorld (some "stale")) (.error ⟨none⟩)).1.state.user
        = none) := by decide

/-- Claim C4 (amended): after a failed startup validation the `user`
component is absent, the persisted token and the shared credential are
removed, and the session is unauthenticated (since `isAuthenticated` is
derived from `user` alone) — but the in-memory `token` component retains
the stale value rather than being cleared. -/
theorem failed_startup_validation_state
    (t : String) (e : HttpError) (ht : t ≠ "") :
    (checkAuth (initialWorld (some t)) (.error e)).1.state.user = none ∧
    (checkAuth (initialWorld (some t)) (.error e)).1.state.token = some t ∧
    (checkAuth (initialWorld (some t)) (.error e)).1.storage = none ∧
    (checkAuth (initialWorld (some t)) (.error e)).1.axiosAuth = none ∧
    isAuthenticated (checkAuth (initialWorld (some t)) (.error e)).1.state
      = false := by
  simp [checkAuth, initialWorld, isAuthenticated, ht]

/-- Witness for the amended C4 at a concrete stale token. -/
theorem failed_startup_validation_state_witness :
    ("stale2" : String) ≠ "" ∧
    (checkAuth (initialWorld (some "stale2")) (.error ⟨some "expired token"⟩)).1.state.token
      = some "stale2" :=
  ⟨by decide,
   (failed_startup_validation_state "stale2" ⟨some "expired token"⟩
      (by decide)).2.1⟩

/-- Claim C5: a failing `login` returns
`{success: false, error: detail || 'Login failed'}` — the human-readable
detail from the error response when a non-empty one is present, the
generic `'Login failed'` otherwise — and leaves the whole session world
(state, persisted token, credential) untouched. -/
theorem login_failure_uniform_result_state_untouched
    (w : AuthWorld) (e : HttpError) (email password : String) :
    (login w (.error e) email password).1 = w ∧
    (login w (.error e) email password).2.1 =
      .res false (some (jsOrStr e.detail "Login failed")) ∧
    (∀ d : String, e.detail = some d → d ≠ "" →
      jsOrStr e.detail "Login failed" = d) ∧
    (e.detail = none → jsOrStr e.detail "Login failed" = "Login failed") := by
  refine ⟨rfl, rfl, ?_, ?_⟩
  · intro d hd hne; simp [jsOrStr, hd, hne]
  · intro hd; simp [jsOrStr, hd]

/-- Witness for C5 at a concrete failing response carrying a detail. -/
theorem login_failure_uniform_result_state_untouched_witness :
    (login (initialWorld none) (.error ⟨some "Invalid credentials"⟩)
      "a@b.com" "x").1 = initialWorld none ∧
    (login (initialWorld none) (.error ⟨some "Invalid credentials"⟩)
      "a@b.com" "x").2.1 = .res false (some "Invalid credentials") := by
  have h := login_failure_uniform_result_state_untouched (initialWorld none)
    ⟨some "Invalid credentials"⟩ "a@b.com" "x"
  exact ⟨h.1, by rw [h.2.1]; decide⟩

/-- Claim C6: the derived values are pure projections of the snapshot:
each is `0` when the snapshot is absent, and when the snapshot is present
`itemCount`/`totalCost` equal its `total_items`/`total_cost` fields
exactly, and `estimatedSavings` equals the `estimated_savings` field
whenever that optional field is present (and is `0` when it is absent). -/
theorem derived_values_pure_projection (b : Option BasketSnapshot) :
    (b = none → itemCount b = 0 ∧ totalCost b = 0 ∧ estimatedSavings b = 0) ∧
    (∀ s : BasketSnapshot, b = some s →
      itemCount b = s.total_items ∧
      totalCost b = s.total_cost ∧
      (∀ v : Rat, s.estimated_savings = some v → estimatedSavings b = v) ∧
      (s.estimated_savings = none → estimatedSavings b = 0)) := by
  constructor
  · rintro rfl; simp [itemCount, totalCost, estimatedSavings]
  · rintro s rfl
    refine ⟨?_, ?_, ?_, ?_⟩
    · simp [itemCount, jsOrZeroNat_eq]
    · simp [totalCost, jsOrZeroRat_eq]
    · intro v hv
      simp [estimatedSavings, jsOrZeroOptRat, hv]
      exact fun h => h.symm
    · intro hv; simp [estimatedSavings, jsOrZeroOptRat, hv]

/-- Witness for C6 at the concrete demo snapshot. -/
theorem derived_values_pure_projection_witness :
    itemCount (some demoSnapshot) = demoSnapshot.total_items ∧
    totalCost (some demoSnapshot) = demoSnapshot.total_cost ∧
    estimatedSavings (some demoSnapshot) = 1 := by
  have h := (derived_values_pure_projection (some demoSnapshot)).2 demoSnapshot rfl
  exact ⟨h.1, h.2.1, h.2.2.1 1 (by decide)⟩

/-- Claim C7: when the authentication flag transitions to true the cart
effect issues exactly one basket fetch; when it transitions to false the
snapshot is discarded immediately and no remote call is made. -/
theorem auth_flag_transitions
    (st : CartState) (resp : Except HttpError BasketSnapshot) :
    (st.isAuthenticated = false →
      (cartAuthEffect st true resp).2 = [.getBasket]) ∧
    (st.isAuthenticated = true →
      (cartAuthEffect st false resp).1.basket = none ∧
      (cartAuthEffect st false resp).2 = []) := by
  constructor
  · intro _; cases resp <;> simp [cartAuthEffect, fetchBasket]
  · intro _; simp [cartAuthEffect]

/-- Witness for C7 at the concrete disabled state becoming authenticated. -/
theorem auth_flag_transitions_witness :
    demoDisabledCart.isAuthenticated = false ∧
    (cartAuthEffect demoDisabledCart true (.ok demoSnapshot)).2 = [.getBasket] :=
  ⟨by decide,
   (auth_flag_transitions demoDisabledCart (.ok demoSnapshot)).1 (by decide)⟩

/-- Claim C8 counterexample: `fetchBasket` invoked in the Active state with
a failing request does not surface the failure to the caller as a failure
result — it returns `undefined` and only logs — refuting the claim for the
fetch operation. -/
theorem active_fetch_failure_not_surfaced :
    isFailureResult (fetchBasket demoActiveCart (.error ⟨none⟩)).2.1 = false ∧
    (fetchBasket demoActiveCart (.error ⟨none⟩)).2.1 = .undef := by decide

/-- Claim C8 (amended): every CartStore operation invoked in the Active
state whose request fails issues exactly one request (no retry) and leaves
the stored snapshot unchanged; the four mutating operations surface the
failure as a single uniform failure result, while `fetchBasket` swallows
the failure (returning `undefined`) and `getBasketSummary` returns
`null`. -/
theorem active_op_failure_single_result
    (st : CartState) (e : HttpError)
    (productId storeId itemId : String) (q : Rat)
    (h : st.isAuthenticated = true) :
    ((addToBasket st (.error e) productId storeId q).1.basket = st.basket ∧
     (addToBasket st (.error e) productId storeId q).2.1 =
       .res false (some (jsOrStr e.detail "Failed to add to basket")) ∧
     (addToBasket st (.error e) productId storeId q).2.2 =
       [.postBasketItem productId storeId q]) ∧
    ((updateBasketItem st (.error e) itemId q).1.basket = st.basket ∧
     (updateBasketItem st (.error e) itemId q).2.1 =
       .res false (some (jsOrStr e.detail "Failed to update item")) ∧
     (updateBasketItem st (.error e) itemId q).2.2 =
       [.putBasketItem itemId q]) ∧
    ((removeFromBasket st (.error e) itemId).1.basket = st.basket ∧
     (removeFromBasket st (.error e) itemId).2.1 =
       .res false (some (jsOrStr e.detail "Failed to remove item")) ∧
     (removeFromBasket st (.error e) itemId).2.2 =
       [.deleteBasketItem itemId]) ∧
    ((clearBasket st (.error e)).1.basket = st.basket ∧
     (clearBasket st (.error e)).2.1 =
       .res false (some (jsOrStr e.detail "Failed to clear basket")) ∧
     (clearBasket st (.error e)).2.2 = [.deleteBasket]) ∧
    ((fetchBasket st (.error e)).1.basket = st.basket ∧
     (fetchBasket st (.error e)).2.1 = .undef ∧
     (fetchBasket st (.error e)).2.2 = [.getBasket]) ∧
    ((getBasketSummary st (.error e)).1 = st ∧
     (getBasketSummary st (.error e)).2.1 = .nullv ∧
     (getBasketSummary st (.error e)).2.2 = [.getSummary]) := by
  simp [addToBasket, updateBasketItem, removeFromBasket, clearBasket,
        fetchBasket, getBasketSummary, h]

/-- Witness for the amended C8 at a concrete active state and failure. -/
theorem active_op_failure_single_result_witness :
    demoActiveCart.isAuthenticated = true ∧
    (addToBasket demoActiveCart (.error ⟨some "Product not found"⟩)
      "P9" "S1" 1).1.basket = demoActiveCart.basket :=
  ⟨by decide,
   (active_op_failure_single_result demoActiveCart ⟨some "Product not found"⟩
      "P9" "S1" "i1" 1 (by decide)).1.1⟩

/-- Claim C9: the shared authorization credential tracks the live session:
successful `login`/`register` set it to the bearer form of the returned
token (and the token effect preserves it, so every subsequent outbound
request carries it), while `logout` and a failed startup validation remove
it immediately, so requests issued afterwards carry no credential. -/
theorem credential_lifecycle
    (w : AuthWorld) (r : AuthResponse) (e : HttpError) (t : String)
    (email password fullName : String) (location : Option String)
    (req : ApiRequest) :
    (login w (.ok r) email password).1.axiosAuth = some (bearer r.access_token) ∧
    (registerUser w (.ok r) email password fullName location).1.axiosAuth =
      some (bearer r.access_token) ∧
    (r.access_token ≠ "" →
      tokenEffect (login w (.ok r) email password).1 =
        (login w (.ok r) email password).1) ∧
    (logout w).axiosAuth = none ∧
    tokenEffect (logout w) = logout w ∧
    (t ≠ "" →
      (checkAuth (initialWorld (some t)) (.error e)).1.axiosAuth = none) ∧
    (outbound (login w (.ok r) email password).1 req).authorization =
      some (bearer r.access_token) ∧
    (outbound (logout w) req).authorization = none := by
  refine ⟨rfl, rfl, ?_, rfl, ?_, ?_, rfl, rfl⟩
  · intro h; simp [tokenEffect, login, h]
  · simp [tokenEffect, logout]
  · intro h; simp [checkAuth, initialWorld, h]

/-- Witness for C9 at a concrete login response and request. -/
theorem credential_lifecycle_witness :
    ("tok1" : String) ≠ "" ∧
    (login (initialWorld none) (.ok ⟨"tok1", demoUser⟩) "a@b.com" "x").1.axiosAuth
      = some (bearer "tok1") :=
  ⟨by decide,
   (credential_lifecycle (initialWorld none) ⟨"tok1", demoUser⟩ ⟨none⟩ "tok1"
      "a@b.com" "x" "Ada" none .getMe).1⟩

/-- Claim C10: `useAuth` and `useCart` throw (modelled as `Except.error`)
when the context value is absent — i.e. when used outside their providers —
and return the store's value object when it is present. -/
theorem hooks_throw_outside_provider (α : Type) (v : α) :
    useAuth (none : Option α) =
      .error "useAuth must be used within an AuthProvider" ∧
    useAuth (some v) = .ok v ∧
    useCart (none : Option α) =
      .error "useCart must be used within a CartProvider" ∧
    useCart (some v) = .ok v :=
  ⟨rfl, rfl, rfl, rfl⟩

/-- Witness for C10 at a concrete context value. -/
theorem hooks_throw_outside_provider_witness :
    useAuth (none : Option Nat) =
      .error "useAuth must be used within an AuthProvider" ∧
    useAuth (some 7) = .ok 7 :=
  ⟨(hooks_throw_outside_provider Nat 7).1, (hooks_throw_outside_provider Nat 7).2.1⟩
